import Mathlib

/-!
# Verification of `adversarial/adversarial_depth.py` (PAIR-code/illusions)

A shallow embedding of the adversarial-depth script and proofs of the
spec's claims about it.

Modelling choices:

* Numeric tensors (numpy arrays / Keras tensors) that only undergo
  elementwise arithmetic are modelled as flattened lists of rationals
  (`Tensor := List ℚ`).  Elementwise subtraction and addition are
  `List.zipWith`, scalar multiplication is `List.map`; `K.sum`, `K.mean`,
  `K.abs`, `K.square` act on the flattened element list, and
  `K.prod(K.shape x)` — the number of elements — is the list length.
* Images at the display stage, where the channel axis matters
  (`image.shape[2]`, `image[:,:,0]`, `np.stack(..., axis=2)`), are
  modelled by the structure `Img`: explicit height/width/channel counts
  together with a total pixel function.  A batched (4-D, batch = 1)
  tensor is a list of `Img`, and `image[0]` is its head.
* The compiled Keras function `get_loss_and_gradients` is an opaque
  differentiable oracle: a parameter `gradF : Tensor → ℚ × Tensor`
  returning (loss, gradients) at an input image.
* The in-place update `input_image -= step_size * gradients` together
  with `original_image = input_image.copy()` is modelled twice: once
  purely (`gradient_ascent`), and once against an explicit store of
  arrays indexed by references (`gradient_ascent_st`), which makes the
  aliasing/frame behaviour of `generate_adversarial_example` provable.
-/

/-- Flattened numeric tensor (numpy array under elementwise arithmetic). -/
abbrev Tensor := List ℚ

/-- Elementwise subtraction, `a - b` on numpy arrays of one shape. -/
def tsub (x y : Tensor) : Tensor := List.zipWith (fun a b => a - b) x y

/-- Elementwise addition of tensors. -/
def tadd (x y : Tensor) : Tensor := List.zipWith (fun a b => a + b) x y

/-- Scalar multiplication, `step_size * gradients`. -/
def smul (s : ℚ) (x : Tensor) : Tensor := x.map (fun a => s * a)

/-- The all-zero tensor with `k` elements. -/
def tzero (k : Nat) : Tensor := List.replicate k 0

/-- `retrieve_loss_and_gradients input_image` reads the process-wide
`get_loss_and_gradients` and returns the (loss, gradients) pair it
computes at `input_image`.  The compiled function is the parameter
`gradF`. -/
def retrieve_loss_and_gradients (gradF : Tensor → ℚ × Tensor)
    (input_image : Tensor) : ℚ × Tensor :=
  gradF input_image

/-- `gradient_ascent` from the source: for `i in range(iterations)`,
evaluate loss and gradients at the current image, then update
`input_image -= step_size * gradients`; finally return the image. -/
def gradient_ascent (gradF : Tensor → ℚ × Tensor) (input_image : Tensor) :
    Nat → ℚ → Tensor
  | 0, _ => input_image
  | Nat.succ m, step_size =>
      gradient_ascent gradF
        (tsub input_image
          (smul step_size (retrieve_loss_and_gradients gradF input_image).2))
        m step_size

/-- `gradient_ascent` instrumented with the list of losses it logs
(`print('Loss at', i, ':', loss)`), one entry per loss/gradient
evaluation, in iteration order; the second component is the returned
image. -/
def gradient_ascent_run (gradF : Tensor → ℚ × Tensor) (input_image : Tensor) :
    Nat → ℚ → List ℚ × Tensor
  | 0, _ => ([], input_image)
  | Nat.succ m, step_size =>
      let r := retrieve_loss_and_gradients gradF input_image
      let rest := gradient_ascent_run gradF
        (tsub input_image (smul step_size r.2)) m step_size
      (r.1 :: rest.1, rest.2)

/-- The image produced by the first `t` sequential updates
`input ← input − s × gradient` (spec's description of the loop state). -/
def imageAfter (gradF : Tensor → ℚ × Tensor) (img : Tensor) (s : ℚ) :
    Nat → Tensor
  | 0 => img
  | t + 1 =>
      tsub (imageAfter gradF img s t)
        (smul s (gradF (imageAfter gradF img s t)).2)

/-- The accumulated sum of `s × gradient_t` over `t = 0 .. n-1`, where
`gradient_t` is the gradient evaluated at the image produced by the
first `t` updates (the sum appearing in the spec's update law). -/
def accumulatedGradSum (gradF : Tensor → ℚ × Tensor) (img : Tensor) (s : ℚ)
    (n : Nat) : Tensor :=
  ((List.range n).map
    (fun t => smul s (gradF (imageAfter gradF img s t)).2)).foldr
      tadd (tzero img.length)

theorem tadd_comm (x y : Tensor) : tadd x y = tadd y x := by
  induction x generalizing y with
  | nil => cases y <;> rfl
  | cons a x ih =>
      cases y with
      | nil => rfl
      | cons b y => simp [tadd, List.zipWith] at ih ⊢; constructor
                    · ring
                    · exact ih y

theorem tadd_assoc (x y z : Tensor) :
    tadd (tadd x y) z = tadd x (tadd y z) := by
  induction x generalizing y z with
  | nil => rfl
  | cons a x ih =>
      cases y with
      | nil => rfl
      | cons b y =>
          cases z with
          | nil => rfl
          | cons c z =>
              simp [tadd, List.zipWith] at ih ⊢
              constructor
              · ring
              · exact ih y z

theorem tsub_tadd (a x y : Tensor) :
    tsub (tsub a x) y = tsub a (tadd x y) := by
  induction a generalizing x y with
  | nil => rfl
  | cons v a ih =>
      cases x with
      | nil => rfl
      | cons b x =>
          cases y with
          | nil => rfl
          | cons c y =>
              simp [tsub, tadd, List.zipWith] at ih ⊢
              constructor
              · ring
              · exact ih x y

theorem tsub_tzero (x : Tensor) : tsub x (tzero x.length) = x := by
  induction x with
  | nil => rfl
  | cons a x ih =>
      simp [tsub, tzero, List.zipWith, List.replicate] at ih ⊢
      exact ih

theorem foldr_tadd_out (g z : Tensor) (l : List Tensor) :
    l.foldr tadd (tadd g z) = tadd g (l.foldr tadd z) := by
  induction l with
  | nil => rfl
  | cons a l ih =>
      simp only [List.foldr_cons, ih]
      rw [tadd_comm a (tadd g (l.foldr tadd z)), tadd_assoc,
        tadd_comm (l.foldr tadd z) a]

theorem gradient_ascent_succ (gradF : Tensor → ℚ × Tensor) (img : Tensor)
    (n : Nat) (s : ℚ) :
    gradient_ascent gradF img (n + 1) s =
      tsub (gradient_ascent gradF img n s)
        (smul s (gradF (gradient_ascent gradF img n s)).2) := by
  induction n generalizing img with
  | zero => rfl
  | succ m ih =>
      show gradient_ascent gradF (tsub img _) (m + 1) s = _
      rw [ih]
      rfl

theorem imageAfter_eq_gradient_ascent (gradF : Tensor → ℚ × Tensor)
    (img : Tensor) (s : ℚ) (t : Nat) :
    imageAfter gradF img s t = gradient_ascent gradF img t s := by
  induction t with
  | zero => rfl
  | succ m ih =>
      rw [gradient_ascent_succ]
      show tsub _ _ = _
      rw [ih]

/-- C1: `gradient_ascent` performs exactly the sequential update
`input ← input − s × gradient` each step, and the final image equals the
initial image minus the accumulated sum of `s × gradient_t` over all
iterations, with `gradient_t` evaluated at the image produced by the
first `t` updates. -/
theorem gradient_ascent_update_law (gradF : Tensor → ℚ × Tensor)
    (img : Tensor) (n : Nat) (s : ℚ) :
    gradient_ascent gradF img n s = imageAfter gradF img s n ∧
    gradient_ascent gradF img n s =
      tsub img (accumulatedGradSum gradF img s n) := by
  refine ⟨(imageAfter_eq_gradient_ascent gradF img s n).symm, ?_⟩
  induction n with
  | zero =>
      simpa [accumulatedGradSum] using (tsub_tzero img).symm
  | succ m ih =>
      have hsum : accumulatedGradSum gradF img s (m + 1) =
          tadd (accumulatedGradSum gradF img s m)
            (smul s (gradF (imageAfter gradF img s m)).2) := by
        unfold accumulatedGradSum
        rw [List.range_succ, List.map_append, List.foldr_append]
        simp only [List.map_cons, List.map_nil, List.foldr_cons,
          List.foldr_nil]
        rw [foldr_tadd_out, tadd_comm]
      rw [gradient_ascent_succ, ih, tsub_tadd]
      congr 1
      rw [hsum, imageAfter_eq_gradient_ascent, ih]

/-- C4: `gradient_ascent` terminates purely by iteration count — it
performs exactly `n` loss/gradient evaluations (one loss logged per
iteration), and then returns the image produced by the `n` sequential
updates (no early exit). -/
theorem gradient_ascent_iteration_count (gradF : Tensor → ℚ × Tensor)
    (img : Tensor) (n : Nat) (s : ℚ) :
    (gradient_ascent_run gradF img n s).1.length = n ∧
    (gradient_ascent_run gradF img n s).2 = gradient_ascent gradF img n s := by
  induction n generalizing img with
  | zero => exact ⟨rfl, rfl⟩
  | succ m ih =>
      simp only [gradient_ascent_run, gradient_ascent, List.length_cons]
      exact ⟨by rw [(ih _).1], (ih _).2⟩

/-! ## Loss construction and gradient normalization

`generate_adversarial_example` builds
`loss = K.sum(K.square(final_layer_output - goal_output)) / scale_factor`
with `scale_factor = K.prod(K.cast(K.shape(final_layer_output), 'float32'))`,
and then normalizes the gradients with
`gradients /= K.maximum(K.mean(K.abs(gradients)), K.epsilon())`. -/

/-- `K.sum`: sum of all elements. -/
def ksum (x : Tensor) : ℚ := x.sum

/-- `K.square`: elementwise square. -/
def ksquare (x : Tensor) : Tensor := x.map (fun a => a * a)

/-- `K.abs`: elementwise absolute value. -/
def kabs (x : Tensor) : Tensor := x.map (fun a => |a|)

/-- `K.mean`: mean of all elements. -/
def kmean (x : Tensor) : ℚ := x.sum / (x.length : ℚ)

/-- `K.shape` of a (flattened) tensor: one axis holding all elements. -/
def kshape (x : Tensor) : List Nat := [x.length]

/-- `K.epsilon()`: the Keras numerical fuzz factor, `1e-07`. -/
def epsilon : ℚ := 1 / 10000000

/-- `scale_factor = K.prod(K.cast(K.shape(final_layer_output), 'float32'))`:
the product of the tensor's axis lengths, i.e. its number of elements. -/
def scale_factor (x : Tensor) : ℚ := ((kshape x).map (fun n => (n : ℚ))).prod

/-- The scalar loss built by `generate_adversarial_example`:
`K.sum(K.square(final_layer_output - goal_output)) / scale_factor`. -/
def adversarial_loss (final_layer_output goal_output : Tensor) : ℚ :=
  ksum (ksquare (tsub final_layer_output goal_output)) /
    scale_factor final_layer_output

/-- The spec's description of the loss: the sum of squared per-element
differences between the final-layer activation and the target tensor,
divided by the activation's number of elements. -/
def claimedMeanSquaredError (f t : Tensor) : ℚ :=
  (((List.range f.length).map (fun i => (f.getD i 0 - t.getD i 0) ^ 2)).sum) /
    (f.length : ℚ)

/-- The divisor of the gradient normalization:
`K.maximum(K.mean(K.abs(gradients)), K.epsilon())`. -/
def norm_divisor (g : Tensor) : ℚ := max (kmean (kabs g)) epsilon

/-- `gradients /= K.maximum(K.mean(K.abs(gradients)), K.epsilon())`. -/
def normalize_gradients (g : Tensor) : Tensor :=
  g.map (fun a => a / norm_divisor g)

theorem scale_factor_eq_length (x : Tensor) :
    scale_factor x = (x.length : ℚ) := by
  simp [scale_factor, kshape]

theorem ksum_ksquare_tsub (f g : Tensor) (h : f.length = g.length) :
    ksum (ksquare (tsub f g)) =
      ((List.range f.length).map
        (fun i => (f.getD i 0 - g.getD i 0) ^ 2)).sum := by
  induction f generalizing g with
  | nil => simp [ksum, ksquare, tsub]
  | cons a f ih =>
      cases g with
      | nil => simp at h
      | cons b g =>
          simp only [List.length_cons, Nat.succ.injEq] at h
          have hih := ih g h
          simp only [ksum, ksquare, tsub] at hih
          simp only [tsub, List.zipWith_cons_cons, ksquare, List.map_cons,
            ksum, List.sum_cons, List.length_cons, List.range_succ_eq_map,
            List.map_map, hih]
          simp only [Function.comp_def, List.getD_cons_succ,
            List.getD_cons_zero]
          ring

/-- C2: the scalar loss constructed by `generate_adversarial_example`
equals the sum of squared per-element differences between the
final-layer activation and the target tensor, divided by the number of
elements of the final-layer activation. -/
theorem adversarial_loss_is_mse (f t : Tensor) (h : f.length = t.length) :
    adversarial_loss f t = claimedMeanSquaredError f t := by
  rw [adversarial_loss, claimedMeanSquaredError, scale_factor_eq_length,
    ksum_ksquare_tsub f t h]

/-- Witness for C2 at a concrete activation/target pair. -/
theorem adversarial_loss_is_mse_witness :
    adversarial_loss [1, 2] [3, 5] = claimedMeanSquaredError [1, 2] [3, 5] ∧
    adversarial_loss [1, 2] [3, 5] = 13 / 2 :=
  ⟨adversarial_loss_is_mse [1, 2] [3, 5] (by decide),
   by norm_num [adversarial_loss, ksum, ksquare, tsub, scale_factor, kshape]⟩

/-- C3: the divisor used to normalize the gradient is
`max(mean(abs(gradient)), epsilon)`: it equals `mean(abs(gradient))`
whenever that mean is at least the floor `epsilon`, equals the floor
otherwise, is never below the floor, and is never zero. -/
theorem norm_divisor_floor (g : Tensor) :
    epsilon ≤ norm_divisor g ∧
    (epsilon ≤ kmean (kabs g) → norm_divisor g = kmean (kabs g)) ∧
    (kmean (kabs g) < epsilon → norm_divisor g = epsilon) ∧
    norm_divisor g ≠ 0 := by
  refine ⟨le_max_right _ _, fun h => max_eq_left h, fun h => max_eq_right h.le,
    ?_⟩
  have h0 : (0 : ℚ) < epsilon := by norm_num [epsilon]
  have := le_max_right (kmean (kabs g)) epsilon
  exact ne_of_gt (lt_of_lt_of_le h0 this)

/-- Witness for C3: both branches of the maximum at concrete gradients. -/
theorem norm_divisor_floor_witness :
    norm_divisor [4] = kmean (kabs [4]) ∧ norm_divisor [0] = epsilon :=
  ⟨(norm_divisor_floor [4]).2.1 (by norm_num [kmean, kabs, epsilon]),
   (norm_divisor_floor [0]).2.2.1 (by norm_num [kmean, kabs, epsilon])⟩

/-! ## Display model

`to_multichannel`, `display_image` and `display` operate on image
arrays whose channel axis matters.  An `Img` is a 3-D
(height, width, channel) array: explicit axis lengths plus a total
pixel function.  A 4-D (batch, ...) tensor is a list of `Img` along the
batch axis, and `image[0]` is its head. -/

/-- A 3-D (height, width, channel) image array. -/
structure Img where
  height : Nat
  width : Nat
  channels : Nat
  pix : Nat → Nat → Nat → ℚ

instance : Inhabited Img := ⟨⟨0, 0, 0, fun _ _ _ => 0⟩⟩

/-- 4-D (batch, height, width, channel) image tensor; the batch size is
1 throughout the script. -/
abbrev Tensor4 := List Img

/-- `image[0]`: the first element along the batch axis. -/
def batchHead (t : Tensor4) : Img := t.headI

/-- `to_multichannel` from the source: if `image.shape[2] == 3`, return
the image; otherwise take `image = image[:,:,0]` and return
`np.stack((image, image, image), axis=2)`. -/
def to_multichannel (image : Img) : Img :=
  if image.channels = 3 then image
  else { height := image.height, width := image.width, channels := 3,
         pix := fun i j _ => image.pix i j 0 }

/-- The argument `plt.imshow` receives: either a 3-D (height, width,
channel) image or a 2-D grayscale array. -/
inductive Rendered where
  | color (img : Img)
  | gray (height width : Nat) (pix : Nat → Nat → ℚ)

/-- `display_image` from the source: inputs are shown as
`to_multichannel(image[0])`; other images (depth outputs) are shown as
the 2-D slice `image[0][:,:,0]`. -/
def display_image (image : Tensor4) (is_input : Bool) : Rendered :=
  if is_input then Rendered.color (to_multichannel (batchHead image))
  else
    Rendered.gray (batchHead image).height (batchHead image).width
      (fun i j => (batchHead image).pix i j 0)

/-- `display` from the source: run the model forward on the original and
altered images and render, in order, original input, original predicted
depth, altered input, altered predicted depth.  `predict` models
`depth_model_wrapper.predict(model, ·)`. -/
def display (predict : Tensor4 → Tensor4)
    (original_image altered_image : Tensor4) : List Rendered :=
  let original_output := predict original_image
  let altered_output := predict altered_image
  [display_image original_image true,
   display_image original_output false,
   display_image altered_image true,
   display_image altered_output false]

/-- The rendering rule claimed by the spec for every displayed image
(inputs and depth outputs alike): a 3-channel image is shown as-is, any
other image has its channel 0 broadcast to 3 identical channels before
being shown. -/
def claimedDisplayRendering (image : Tensor4) : Rendered :=
  if (batchHead image).channels = 3 then Rendered.color (batchHead image)
  else
    Rendered.color
      { height := (batchHead image).height, width := (batchHead image).width,
        channels := 3, pix := fun i j _ => (batchHead image).pix i j 0 }

/-- C5: `to_multichannel` returns 3-channel images unchanged, and maps a
1-channel image to a 3-channel image whose three channels all equal the
input's single channel. -/
theorem to_multichannel_spec (image : Img) :
    (image.channels = 3 → to_multichannel image = image) ∧
    (image.channels = 1 →
      (to_multichannel image).channels = 3 ∧
      ∀ i j, (to_multichannel image).pix i j 0 = image.pix i j 0 ∧
             (to_multichannel image).pix i j 1 = image.pix i j 0 ∧
             (to_multichannel image).pix i j 2 = image.pix i j 0) := by
  constructor
  · intro h
    simp [to_multichannel, h]
  · intro h
    have h3 : image.channels ≠ 3 := by omega
    simp [to_multichannel, h3]

/-- A concrete 3-channel image. -/
def exImg3 : Img := ⟨1, 1, 3, fun _ _ _ => 1⟩

/-- A concrete 1-channel image. -/
def exImg1 : Img := ⟨1, 1, 1, fun _ _ _ => 2⟩

/-- Witness for C5 at concrete 3-channel and 1-channel images. -/
theorem to_multichannel_spec_witness :
    to_multichannel exImg3 = exImg3 ∧ (to_multichannel exImg1).channels = 3 :=
  ⟨(to_multichannel_spec exImg3).1 rfl,
   ((to_multichannel_spec exImg1).2 rfl).1⟩

/-- C10: on any image whose channel count is not 3, `to_multichannel`
replicates channel 0 into 3 identical channels, and the result does not
depend on the data in any other channel. -/
theorem to_multichannel_non3 (image image' : Img)
    (h : image.channels ≠ 3) (h' : image'.channels ≠ 3)
    (hh : image.height = image'.height) (hw : image.width = image'.width)
    (h0 : ∀ i j, image.pix i j 0 = image'.pix i j 0) :
    (to_multichannel image).channels = 3 ∧
    (∀ i j, (to_multichannel image).pix i j 0 = image.pix i j 0 ∧
            (to_multichannel image).pix i j 1 = image.pix i j 0 ∧
            (to_multichannel image).pix i j 2 = image.pix i j 0) ∧
    to_multichannel image = to_multichannel image' := by
  refine ⟨by simp [to_multichannel, h], by simp [to_multichannel, h], ?_⟩
  simp only [to_multichannel, if_neg h, if_neg h', Img.mk.injEq]
  exact ⟨hh, hw, trivial,
    funext fun i => funext fun j => funext fun _ => h0 i j⟩

/-- A concrete 2-channel image (second channel nonzero). -/
def exImg2 : Img := ⟨1, 1, 2, fun _ _ c => c⟩

/-- A concrete 4-channel image agreeing with `exImg2` on channel 0. -/
def exImg4 : Img := ⟨1, 1, 4, fun _ _ c => 2 * c⟩

/-- Witness for C10: a 2-channel and a 4-channel image with equal
channel 0 produce the same 3-channel result. -/
theorem to_multichannel_non3_witness :
    (to_multichannel exImg2).channels = 3 ∧
    to_multichannel exImg2 = to_multichannel exImg4 :=
  ⟨(to_multichannel_non3 exImg2 exImg4 (by decide) (by decide) rfl rfl
      (fun _ _ => by norm_num [exImg2, exImg4])).1,
   (to_multichannel_non3 exImg2 exImg4 (by decide) (by decide) rfl rfl
      (fun _ _ => by norm_num [exImg2, exImg4])).2.2⟩

/-- A concrete 1-channel predicted-depth output (batch of 1). -/
def exDepthOutput : Tensor4 := [⟨1, 1, 1, fun _ _ _ => 7⟩]

/-- C6 counterexample: a predicted depth output is NOT broadcast to 3
identical channels for display — `display_image` with
`is_input = False` renders the 2-D channel-0 slice, not the claimed
3-channel image. -/
theorem display_output_not_multichannel :
    display_image exDepthOutput false ≠ claimedDisplayRendering exDepthOutput := by
  intro hEq
  simp [display_image, claimedDisplayRendering, batchHead, exDepthOutput] at hEq

/-- C6 (amended): the 3-channel normalization is applied only to input
images (`is_input = True`); predicted depth outputs are rendered as the
2-D channel-0 slice `image[0][:,:,0]`, whatever their channel count. -/
theorem display_image_rendering (image : Tensor4) :
    display_image image true = claimedDisplayRendering image ∧
    display_image image false =
      Rendered.gray (batchHead image).height (batchHead image).width
        (fun i j => (batchHead image).pix i j 0) := by
  refine ⟨?_, rfl⟩
  by_cases h : (batchHead image).channels = 3
  · simp [display_image, claimedDisplayRendering, to_multichannel, h]
  · simp [display_image, claimedDisplayRendering, to_multichannel, h]

/-! ## Store model for the in-place loop (C7)

`input_image -= step_size * gradients` mutates the numpy array in
place, and `gradient_ascent` returns the same array object, so
`altered_image` aliases `input_image`.  To reason about this the loop is
re-run against an explicit store: array references are naturals, a
store maps references to array contents. -/

/-- A store of numpy arrays, mapping references to contents. -/
abbrev Store := Nat → Tensor

/-- Overwrite the contents of the array at reference `r`. -/
def store_write (st : Store) (r : Nat) (v : Tensor) : Store :=
  fun q => if q = r then v else st q

/-- `gradient_ascent` acting on a store: each iteration evaluates the
loss/gradients at the array at reference `r` and updates that array in
place; no other array is touched, and the reference `r` itself is what
the function returns. -/
def gradient_ascent_st (gradF : Tensor → ℚ × Tensor) (st : Store) (r : Nat) :
    Nat → ℚ → Store
  | 0, _ => st
  | Nat.succ m, step_size =>
      let g := retrieve_loss_and_gradients gradF (st r)
      gradient_ascent_st gradF
        (store_write st r (tsub (st r) (smul step_size g.2))) r m step_size

/-- The dataflow of `generate_adversarial_example` around the loop:
the loaded input image lives at reference 0; `original_image =
input_image.copy()` allocates a fresh array at reference 1; the
in-place loop runs on reference 0; the pair handed to `display` is
`(original_image, altered_image)` — references 1 and 0 of the final
store. -/
def generate_adversarial_images (gradF : Tensor → ℚ × Tensor)
    (loaded_input : Tensor) (iterations : Nat) (step_size : ℚ) :
    Tensor × Tensor :=
  let st0 : Store := store_write (fun _ => []) 0 loaded_input
  let st1 : Store := store_write st0 1 (st0 0)
  let st2 := gradient_ascent_st gradF st1 0 iterations step_size
  (st2 1, st2 0)

theorem gradient_ascent_st_frame (gradF : Tensor → ℚ × Tensor) (st : Store)
    (r q : Nat) (n : Nat) (s : ℚ) (hq : q ≠ r) :
    gradient_ascent_st gradF st r n s q = st q := by
  induction n generalizing st with
  | zero => rfl
  | succ m ih =>
      show gradient_ascent_st gradF (store_write st r _) r m s q = st q
      rw [ih]
      simp [store_write, hq]

theorem gradient_ascent_st_at_ref (gradF : Tensor → ℚ × Tensor) (st : Store)
    (r : Nat) (n : Nat) (s : ℚ) :
    gradient_ascent_st gradF st r n s r = gradient_ascent gradF (st r) n s := by
  induction n generalizing st with
  | zero => rfl
  | succ m ih =>
      show gradient_ascent_st gradF (store_write st r _) r m s r = _
      rw [ih]
      simp [store_write, gradient_ascent]

/-- C7: the optimization loop mutates only the altered image: the
`original_image` handed to `display` equals the loaded input unchanged
(a copy is taken before the loop), the altered image is the loop's
result, and `display` renders, in order, original input, original
predicted depth, altered input, altered predicted depth. -/
theorem generate_preserves_original (gradF : Tensor → ℚ × Tensor)
    (loaded_input : Tensor) (iterations : Nat) (step_size : ℚ)
    (predict : Tensor4 → Tensor4) (original altered : Tensor4) :
    (generate_adversarial_images gradF loaded_input iterations step_size).1 =
      loaded_input ∧
    (generate_adversarial_images gradF loaded_input iterations step_size).2 =
      gradient_ascent gradF loaded_input iterations step_size ∧
    display predict original altered =
      [display_image original true, display_image (predict original) false,
       display_image altered true, display_image (predict altered) false] := by
  refine ⟨?_, ?_, rfl⟩
  · show gradient_ascent_st gradF _ 0 iterations step_size 1 = loaded_input
    rw [gradient_ascent_st_frame gradF _ 0 1 iterations step_size
      (by decide)]
    simp [store_write]
  · show gradient_ascent_st gradF _ 0 iterations step_size 0 = _
    rw [gradient_ascent_st_at_ref]
    simp [store_write]

/-! ## Target construction and error propagation (C8) -/

/-- The hardcoded sink image path. -/
def SINK_IMAGE : String :=
  "/usr/local/google/home/ellenj/Documents/BigPicture/DenseDepth/examples/1_image.png"

/-- The hardcoded bathtub image path. -/
def BATHTUB_IMAGE : String :=
  "/usr/local/google/home/ellenj/Documents/BigPicture/DenseDepth/examples/11_image.png"

/-- `get_sink_to_bathtub_inputs` from the source, with the fallible
model-wrapper calls (`load_image`, `predict`) modelled in `Except`:
load the sink image, load the bathtub image, predict the bathtub
depth, return the pair.  The script contains no try/except, so each
call's error propagates unmodified. -/
def get_sink_to_bathtub_inputs {E M T : Type}
    (load_image : String → Except E T)
    (predict : M → T → Except E T) (model : M) : Except E (T × T) :=
  match load_image SINK_IMAGE with
  | Except.error e => Except.error e
  | Except.ok input_image =>
      match load_image BATHTUB_IMAGE with
      | Except.error e => Except.error e
      | Except.ok bathtub_image =>
          match predict model bathtub_image with
          | Except.error e => Except.error e
          | Except.ok target_depth_output =>
              Except.ok (input_image, target_depth_output)

/-- C8: `get_sink_to_bathtub_inputs` performs no error handling: a
failure of either image load or of the predict call propagates
unmodified to the caller, and on an early failure the later steps never
run (the result does not depend on `predict` at all when a load
fails). -/
theorem get_inputs_error_propagation {E M T : Type}
    (load_image : String → Except E T) (predict : M → T → Except E T)
    (model : M) :
    (∀ e, load_image SINK_IMAGE = Except.error e →
      get_sink_to_bathtub_inputs load_image predict model = Except.error e ∧
      ∀ predict' : M → T → Except E T,
        get_sink_to_bathtub_inputs load_image predict' model =
          get_sink_to_bathtub_inputs load_image predict model) ∧
    (∀ e v, load_image SINK_IMAGE = Except.ok v →
      load_image BATHTUB_IMAGE = Except.error e →
      get_sink_to_bathtub_inputs load_image predict model = Except.error e ∧
      ∀ predict' : M → T → Except E T,
        get_sink_to_bathtub_inputs load_image predict' model =
          get_sink_to_bathtub_inputs load_image predict model) ∧
    (∀ e v w, load_image SINK_IMAGE = Except.ok v →
      load_image BATHTUB_IMAGE = Except.ok w →
      predict model w = Except.error e →
      get_sink_to_bathtub_inputs load_image predict model =
        Except.error e) := by
  refine ⟨fun e he => ⟨?_, fun predict' => ?_⟩,
    fun e v hv he => ⟨?_, fun predict' => ?_⟩, fun e v w hv hw he => ?_⟩
  · simp [get_sink_to_bathtub_inputs, he]
  · simp [get_sink_to_bathtub_inputs, he]
  · simp [get_sink_to_bathtub_inputs, hv, he]
  · simp [get_sink_to_bathtub_inputs, hv, he]
  · simp [get_sink_to_bathtub_inputs, hv, hw, he]

/-- A load that always fails with a file-not-found error. -/
def failing_load : String → Except String ℚ :=
  fun _ => Except.error "FileNotFoundError"

/-- A predict call that always succeeds. -/
def ok_predict : Unit → ℚ → Except String ℚ := fun _ x => Except.ok x

/-- Witness for C8: with a failing loader the error surfaces
unmodified. -/
theorem get_inputs_error_propagation_witness :
    get_sink_to_bathtub_inputs failing_load ok_predict () =
      Except.error "FileNotFoundError" :=
  ((get_inputs_error_propagation failing_load ok_predict ()).1
    "FileNotFoundError" rfl).1

/-! ## Process-wide state discipline (C9)

`generate_adversarial_example` is straight-line code around one loop.
The single `global get_loss_and_gradients` assignment and the reads of
that global by `retrieve_loss_and_gradients` inside the loop are the
only interactions with process-wide state; the trace below lists the
function's observable steps in program order. -/

/-- The observable steps of one run of `generate_adversarial_example`,
in program order. -/
inductive Step where
  /-- `K.set_learning_phase(0)`. -/
  | setLearningPhase
  /-- `model = depth_model_wrapper.initialize_model()`. -/
  | initModel
  /-- `get_sink_to_bathtub_inputs(...)`. -/
  | loadInputs
  /-- Building `loss` and the normalized `gradients` expressions. -/
  | buildLoss
  /-- The assignment to the global `get_loss_and_gradients`. -/
  | assignGlobal
  /-- `original_image = input_image.copy()`. -/
  | copyInput
  /-- Iteration `i` of the loop reading the global through
  `retrieve_loss_and_gradients`. -/
  | readGlobal (i : Nat)
  /-- The final `display(...)` call. -/
  | showResults
  deriving DecidableEq

/-- Whether a step is a read of the compiled-function global. -/
def Step.isReadGlobal : Step → Bool
  | Step.readGlobal _ => true
  | _ => false

/-- The trace of `generate_adversarial_example` with `iterations = n`:
the straight-line prefix ending in the global assignment and the input
copy, then the loop's `n` reads of the global, then the display. -/
def generate_trace (n : Nat) : List Step :=
  [Step.setLearningPhase, Step.initModel, Step.loadInputs, Step.buildLoss,
   Step.assignGlobal, Step.copyInput] ++
    (List.range n).map Step.readGlobal ++ [Step.showResults]

/-- C9: in every run the global holding the compiled loss/gradient
function is assigned exactly once, and every read of it by the
optimization loop happens after that assignment (it is never reset
afterwards). -/
theorem global_assigned_once_before_loop (n : Nat) :
    (generate_trace n).count Step.assignGlobal = 1 ∧
    ∀ j, ((generate_trace n).getD j Step.showResults).isReadGlobal = true →
      ∃ k, k < j ∧
        (generate_trace n).getD k Step.showResults = Step.assignGlobal := by
  constructor
  · have h2 : ((List.range n).map Step.readGlobal).count Step.assignGlobal
        = 0 := by
      rw [List.count_eq_zero]
      intro hmem
      simp [List.mem_map] at hmem
    rw [generate_trace, List.count_append, List.count_append, h2]
    decide
  · intro j hj
    refine ⟨4, ?_, ?_⟩
    · by_contra hlt
      push_neg at hlt
      interval_cases j <;>
        simp [generate_trace, Step.isReadGlobal] at hj
    · simp [generate_trace]

/-- Witness for C9 at `iterations = 2`: the first loop read of the
global (position 6) is preceded by the single assignment. -/
theorem global_assigned_once_before_loop_witness :
    ∃ k, k < 6 ∧
      (generate_trace 2).getD k Step.showResults = Step.assignGlobal :=
  (global_assigned_once_before_loop 2).2 6 (by decide)
